import Mathlib

/-!
Verification of the retrieval core of the medquery repository.

Scores, vectors and stored embeddings are modelled over the rationals: every
IEEE-754 double is a rational number, so every concrete store or score list the
Python code can manipulate is representable exactly.  The cosine-similarity
score function itself involves a floating-point square root, so the ranking
development abstracts it as a parameter `cosSim`; the ranking logic under
verification is independent of the score values.  The real-valued model of the
normalisation pipeline (for norm-1 facts) lives at the end of the file.
-/

namespace MedQuery

/-- Chunk as handed to embed_chunks: a langchain document with page_content
and (opaque, modelled as a string) metadata. -/
structure Chunk where
  page_content : String
  metadata : String
deriving DecidableEq, Inhabited

/-- Entry of the persisted metadata chunks list
(mock_embeddings.py lines 45-51, enhanced_embeddings.py lines 105-111). -/
structure ChunkMeta where
  chunk_id : Nat
  content : String
  metadata : String
deriving DecidableEq, Inhabited

/-- Vector store record for one doc_id: the pickled embeddings list plus the
metadata JSON fields used by retrieval (chunk_count and the chunks list). -/
structure StoreRecord where
  embeddings : List (List ℚ)
  chunk_count : Nat
  chunks : List ChunkMeta
deriving DecidableEq, Inhabited

/-- Model of the embeddings directory: an association list from doc_id to its
record, newest write first. -/
def Store := List (String × StoreRecord)

/-- Reading the record of a doc_id (the pickle plus metadata files); none
models the missing-file case. -/
def storeRead : Store → String → Option StoreRecord
  | [], _ => none
  | (d, r) :: s, d2 => if d = d2 then some r else storeRead s d2

/-- Writing a record for a doc_id, shadowing (replacing) any earlier record. -/
def storeWrite (s : Store) (d : String) (r : StoreRecord) : Store :=
  (d, r) :: s

/-- Model of embed_chunks (mock_embeddings.py lines 25-67,
enhanced_embeddings.py lines 74-134): embeds each chunk text in order and
persists the embeddings list together with the enumerated chunk metadata and
the chunk count, keyed by doc_id.  The embedding function is a parameter,
covering both the mock generator and the external providers. -/
def embed_chunks (embed : String → List ℚ) (s : Store) (chunks : List Chunk)
    (doc_id : String) : Store :=
  let texts := chunks.map (fun c => c.page_content)
  let embeddings := texts.map embed
  storeWrite s doc_id
    { embeddings := embeddings
      chunk_count := chunks.length
      chunks := chunks.enum.map (fun p =>
        { chunk_id := p.1, content := p.2.page_content, metadata := p.2.metadata }) }

/-- Model of np.dot on two equal-length vectors.  On inputs whose Euclidean
norm is exactly 1 this coincides with the full cosine-similarity formula
dot a b / (norm a * norm b); the counterexamples below instantiate the
abstract score function with it at exactly-unit-norm rational vectors, where
the floating-point computation is also exact. -/
def np_dot (a b : List ℚ) : ℚ :=
  ((a.zip b).map (fun p => p.1 * p.2)).sum

/-- Value of the similarity list at an index (out of range reads as 0; all
uses stay in range). -/
def simVal (xs : List ℚ) (i : Nat) : ℚ := xs.getD i 0

/-- Order in which a stable ascending sort emits indices: ascending by value
and, on equal values, ascending by original index.  The numpy default
introsort is stable exactly where it runs its insertion-sort fallback, on
arrays of at most 16 elements; this lexicographic order on (value, index)
models that small-array regime only, and argsort below uses it only there. -/
def simLt (xs : List ℚ) (i j : Nat) : Prop :=
  simVal xs i < simVal xs j ∨ (simVal xs i = simVal xs j ∧ i ≤ j)

instance (xs : List ℚ) : DecidableRel (simLt xs) := fun i j =>
  decidable_of_iff (simVal xs i < simVal xs j ∨ (simVal xs i = simVal xs j ∧ i ≤ j))
    Iff.rfl

instance (xs : List ℚ) : IsTotal Nat (simLt xs) where
  total i j := by
    rcases lt_trichotomy (simVal xs i) (simVal xs j) with h | h | h
    · exact Or.inl (Or.inl h)
    · rcases Nat.le_total i j with hij | hij
      · exact Or.inl (Or.inr ⟨h, hij⟩)
      · exact Or.inr (Or.inr ⟨h.symm, hij⟩)
    · exact Or.inr (Or.inl h)

instance (xs : List ℚ) : IsTrans Nat (simLt xs) where
  trans i j k hij hjk := by
    rcases hij with h1 | ⟨e1, l1⟩
    · rcases hjk with h2 | ⟨e2, _⟩
      · exact Or.inl (h1.trans h2)
      · exact Or.inl (e2 ▸ h1)
    · rcases hjk with h2 | ⟨e2, l2⟩
      · exact Or.inl (e1 ▸ h2)
      · exact Or.inr ⟨e1.trans e2, l1.trans l2⟩

/-- Stable ascending argsort of a short similarity list: the behaviour of
np.argsort on arrays of at most 16 elements, where the numpy introsort runs
its stable insertion-sort fallback. -/
def smallArgsort (xs : List ℚ) : List Nat :=
  List.insertionSort (simLt xs) (List.range xs.length)

/-- Model of np.argsort (mock_embeddings.py line 125, simple_retriever.py
line 57, multi_doc_retriever.py line 55): a permutation of the indices
0..len-1 arranged into non-decreasing order of similarity.  The numpy
default sort (introsort) is documented as not stable: only on arrays of at
most 16 elements, where it runs its stable insertion-sort fallback, is the
order of equal entries determined (ascending index), and that regime is
modelled exactly; on longer arrays the order of equal entries is
unspecified, so the model commits to nothing beyond a sorted permutation,
obtained by choice - no tie order is provable about it. -/
noncomputable def argsort (xs : List ℚ) : List Nat :=
  if xs.length ≤ 16 then smallArgsort xs
  else Classical.choose
    (p := fun idxs : List Nat => idxs.Perm (List.range xs.length) ∧
      idxs.Pairwise (fun i j => simVal xs i ≤ simVal xs j))
    ⟨smallArgsort xs, List.perm_insertionSort (simLt xs) (List.range xs.length),
      List.Pairwise.imp (fun h => h.elim le_of_lt (fun h2 => le_of_eq h2.1))
        (List.sorted_insertionSort (simLt xs) (List.range xs.length))⟩

/-- Model of the Python slice arr[-k:]: the last k entries, the whole list
when k exceeds the length, and - since -0 is 0 - the whole list when k = 0. -/
def sliceLast (k : Nat) (xs : List Nat) : List Nat :=
  if k = 0 then xs else xs.drop (xs.length - k)

/-- Model of np.argsort(similarities)[-top_k:][::-1]
(mock_embeddings.py line 125): the selected indices, best similarity first. -/
noncomputable def topIndices (sims : List ℚ) (top_k : Nat) : List Nat :=
  (sliceLast top_k (argsort sims)).reverse

/-- Retrieval result row (mock_embeddings.py lines 132-137). -/
structure RetrievalResult where
  chunk_id : Nat
  content : String
  score : ℚ
  metadata : String
deriving DecidableEq, Inhabited

/-- Result row built from the metadata entry at a selected index plus its
similarity score (mock_embeddings.py lines 131-137). -/
def resultAt (sims : List ℚ) (chunks : List ChunkMeta) (i : Nat) : RetrievalResult :=
  { chunk_id := (chunks.getD i default).chunk_id
    content := (chunks.getD i default).content
    score := simVal sims i
    metadata := (chunks.getD i default).metadata }

/-- Model of the result loop (mock_embeddings.py lines 128-137): for each
selected index, append a result row when the index is in range of the
metadata chunks list, silently skip it otherwise. -/
def buildResults (sims : List ℚ) (chunks : List ChunkMeta) : List Nat → List RetrievalResult
  | [] => []
  | i :: rest =>
    if i < chunks.length then resultAt sims chunks i :: buildResults sims chunks rest
    else buildResults sims chunks rest

/-- Model of MockRetriever.retrieve (mock_embeddings.py lines 103-139) and of
the textually identical SimpleRetriever.retrieve (simple_retriever.py lines
35-71): fail with the Not-Found ValueError when no record is stored for
doc_id, otherwise embed the query, score every stored chunk embedding and
rank.  The query embedder and the similarity score function are parameters,
covering the mock generator and the external providers. -/
noncomputable def retrieve (cosSim : List ℚ → List ℚ → ℚ) (embedQuery : String → List ℚ)
    (s : Store) (query doc_id : String) (top_k : Nat) :
    Except String (List RetrievalResult) :=
  match storeRead s doc_id with
  | none => .error ("No embeddings found for document " ++ doc_id)
  | some r =>
    let q := embedQuery query
    let sims := r.embeddings.map (fun ce => cosSim q ce)
    .ok (buildResults sims r.chunks (topIndices sims top_k))

/-- Retrieval result row of the multi-document retriever
(multi_doc_retriever.py lines 62-68): the single-document fields plus the
source doc_id. -/
structure MultiResult where
  chunk_id : Nat
  content : String
  score : ℚ
  metadata : String
  doc_id : String
deriving DecidableEq, Inhabited

/-- Result row of retrieve_from_single_doc at a selected index
(multi_doc_retriever.py lines 61-68). -/
def resultAtDoc (sims : List ℚ) (chunks : List ChunkMeta) (doc_id : String)
    (i : Nat) : MultiResult :=
  { chunk_id := (chunks.getD i default).chunk_id
    content := (chunks.getD i default).content
    score := simVal sims i
    metadata := (chunks.getD i default).metadata
    doc_id := doc_id }

/-- Model of the result loop of retrieve_from_single_doc
(multi_doc_retriever.py lines 58-68). -/
def buildResultsDoc (sims : List ℚ) (chunks : List ChunkMeta) (doc_id : String) :
    List Nat → List MultiResult
  | [] => []
  | i :: rest =>
    if i < chunks.length then
      resultAtDoc sims chunks doc_id i :: buildResultsDoc sims chunks doc_id rest
    else buildResultsDoc sims chunks doc_id rest

/-- Model of MultiDocRetriever.retrieve_from_single_doc
(multi_doc_retriever.py lines 33-70): identical to retrieve except that each
result row also carries the source doc_id. -/
noncomputable def retrieve_from_single_doc (cosSim : List ℚ → List ℚ → ℚ)
    (embedQuery : String → List ℚ) (s : Store) (query doc_id : String)
    (top_k : Nat) : Except String (List MultiResult) :=
  match storeRead s doc_id with
  | none => .error ("No embeddings found for document " ++ doc_id)
  | some r =>
    let q := embedQuery query
    let sims := r.embeddings.map (fun ce => cosSim q ce)
    .ok (buildResultsDoc sims r.chunks doc_id (topIndices sims top_k))

/-- Order used to model the Python call
all_results.sort(key=lambda x: x.score, reverse=True)
(multi_doc_retriever.py line 84) on position-decorated rows: descending by
score and, on equal scores, ascending by original position.  the Python sort is
stable, so this lexicographic order on (score descending, position) is its
exact behaviour. -/
def mergeLt (a b : Nat × MultiResult) : Prop :=
  b.2.score < a.2.score ∨ (a.2.score = b.2.score ∧ a.1 ≤ b.1)

instance : DecidableRel mergeLt := fun a b =>
  decidable_of_iff (b.2.score < a.2.score ∨ (a.2.score = b.2.score ∧ a.1 ≤ b.1))
    Iff.rfl

instance : IsTotal (Nat × MultiResult) mergeLt where
  total a b := by
    rcases lt_trichotomy a.2.score b.2.score with h | h | h
    · exact Or.inr (Or.inl h)
    · rcases Nat.le_total a.1 b.1 with hab | hab
      · exact Or.inl (Or.inr ⟨h, hab⟩)
      · exact Or.inr (Or.inr ⟨h.symm, hab⟩)
    · exact Or.inl (Or.inl h)

instance : IsTrans (Nat × MultiResult) mergeLt where
  trans a b c hab hbc := by
    rcases hab with h1 | ⟨e1, l1⟩
    · rcases hbc with h2 | ⟨e2, _⟩
      · exact Or.inl (h2.trans h1)
      · exact Or.inl (e2 ▸ h1)
    · rcases hbc with h2 | ⟨e2, l2⟩
      · exact Or.inl (e1 ▸ h2)
      · exact Or.inr ⟨e1.trans e2, l1.trans l2⟩

/-- Model of the stable descending sort by score
(multi_doc_retriever.py line 84): decorate each row with its position in the
concatenation, sort by (score descending, position ascending), drop the
positions. -/
def pySortByScoreDesc (l : List MultiResult) : List MultiResult :=
  (List.insertionSort mergeLt l.enum).map Prod.snd

/-- Model of the collection loop of retrieve_from_multiple_docs
(multi_doc_retriever.py lines 74-81): per doc_id, append the local top_k
results; a doc_id whose retrieval fails is skipped (the bare except clause
catches every exception). -/
noncomputable def collectResults (cosSim : List ℚ → List ℚ → ℚ) (embedQuery : String → List ℚ)
    (s : Store) (query : String) (doc_ids : List String) (top_k : Nat) :
    List MultiResult :=
  doc_ids.foldl (fun acc d =>
    match retrieve_from_single_doc cosSim embedQuery s query d top_k with
    | .ok rs => acc ++ rs
    | .error _ => acc) []

/-- Model of MultiDocRetriever.retrieve_from_multiple_docs
(multi_doc_retriever.py lines 72-87): collect the per-document local results,
sort the concatenation by score descending (the stable Python sort), return the
first top_k rows. -/
noncomputable def retrieve_from_multiple_docs (cosSim : List ℚ → List ℚ → ℚ)
    (embedQuery : String → List ℚ) (s : Store) (query : String)
    (doc_ids : List String) (top_k : Nat) : List MultiResult :=
  (pySortByScoreDesc (collectResults cosSim embedQuery s query doc_ids top_k)).take top_k

/-- Model of the CPython built-in hash on strings: since Python 3.3 string
hashing is keyed by a per-process randomisation salt (PYTHONHASHSEED, drawn
at interpreter start), so it is a function of the salt and the text, not of
the text alone.  The exact keyed algorithm (siphash13) is irrelevant here;
what matters for the claims is the salt dependence, modelled as an
FNV-style keyed fold over the characters. -/
def pyHash (salt : Nat) (t : String) : Nat :=
  t.data.foldl (fun h c => (h * 1000003 + c.toNat + 1) % (2 ^ 61)) salt

/-- Seed computation of EnhancedEmbeddingsManager._generate_mock_embedding
(enhanced_embeddings.py line 52): hash(text) % 10000000, the result of which
is passed to np.random.seed.  The per-process hash salt is an explicit
parameter. -/
def enhanced_mock_seed (salt : Nat) (text : String) : Nat :=
  pyHash salt text % 10000000

/-- Seed computation of MockEmbeddingsManager._generate_mock_embedding and of
the identical MockRetriever._generate_mock_embedding (mock_embeddings.py
lines 17 and 76): int(md5(text).hexdigest(), 16) % 10000000.  MD5 is a fixed
function of the text bytes, modelled as the parameter md5val; no per-process
state enters. -/
def md5_mock_seed (md5val : String → Nat) (text : String) : Nat :=
  md5val text % 10000000

/-- Sum of squares of a real vector. -/
def sumSq (v : List ℝ) : ℝ := (v.map (fun x => x * x)).sum

/-- Model of np.linalg.norm: the Euclidean norm, the square root of the sum
of squares. -/
noncomputable def euclNorm (v : List ℝ) : ℝ := Real.sqrt (sumSq v)

/-- Model of embedding / np.linalg.norm(embedding)
(mock_embeddings.py line 22, enhanced_embeddings.py line 57): divide every
component by the Euclidean norm of the vector. -/
noncomputable def normalizeVec (v : List ℝ) : List ℝ :=
  v.map (fun x => x / euclNorm v)

/-- Model of cosine_similarity (mock_embeddings.py lines 99-101,
multi_doc_retriever.py lines 29-31, simple_retriever.py lines 31-33) over the
reals: the dot product divided by the product of the Euclidean norms.  The
ranking development above abstracts this as the parameter cosSim because the
square root is not a rational operation. -/
noncomputable def cosine_similarity (a b : List ℝ) : ℝ :=
  ((a.zip b).map (fun p => p.1 * p.2)).sum / (euclNorm a * euclNorm b)

/-- Model of _generate_mock_embedding (mock_embeddings.py lines 14-23,
enhanced_embeddings.py lines 49-58): derive a seed from the text via the
seeding function (md5-based or built-in-hash-based), draw dim samples from
np.random.randn after np.random.seed(seed) - the seeded gaussian sampler is
the oracle parameter randn, a fixed function of seed and dim since the numpy
MT19937 stream is a deterministic function of its seed - and divide the
sample vector by its Euclidean norm. -/
noncomputable def generate_mock_embedding (seedOf : String → Nat)
    (randn : Nat → Nat → List ℝ) (text : String) (dim : Nat) : List ℝ :=
  normalizeVec (randn (seedOf text) dim)

/-- Configuration carried by TextChunker (text_chunker.py lines 5-7). -/
structure TextChunker where
  chunk_size : Int
  chunk_overlap : Int
deriving DecidableEq, Inhabited

/-- Modelled from the spec: the splitting engine constructed in
TextChunker.__init__ (the langchain RecursiveCharacterTextSplitter,
text_chunker.py lines 8-13) is an external package whose code is not part of
src/; section 4.2 of the spec fixes its configuration contract - an invalid
configuration with max_tokens at most 0 is a configuration error, reported to
the caller before any chunking begins.  Construction therefore fails on such
a configuration and succeeds otherwise. -/
def mkTextSplitter (max_tokens _overlap_tokens : Int) : Except String Unit :=
  if max_tokens ≤ 0 then
    .error "configuration error: max_tokens must be positive"
  else .ok ()

/-- Model of TextChunker.__init__ (text_chunker.py lines 5-13): store the two
sizes and construct the splitter; a splitter construction error propagates to
the caller, so no TextChunker value - and hence no chunk list - is ever
produced from an invalid configuration. -/
def mkTextChunker (chunk_size chunk_overlap : Int) : Except String TextChunker :=
  match mkTextSplitter chunk_size chunk_overlap with
  | .error e => .error e
  | .ok _ => .ok { chunk_size := chunk_size, chunk_overlap := chunk_overlap }

instance {ε α : Type} [DecidableEq ε] [DecidableEq α] : DecidableEq (Except ε α) := fun x y =>
  match x, y with
  | .ok a, .ok b =>
    if h : a = b then isTrue (by rw [h]) else isFalse (fun hc => by cases hc; exact h rfl)
  | .error a, .error b =>
    if h : a = b then isTrue (by rw [h]) else isFalse (fun hc => by cases hc; exact h rfl)
  | .ok _, .error _ => isFalse (fun hc => by cases hc)
  | .error _, .ok _ => isFalse (fun hc => by cases hc)

/-- Example record: a document with two chunks whose stored embeddings are
identical unit vectors, so both chunks receive exactly equal similarity
scores for any query. -/
def exRecTie : StoreRecord :=
  { embeddings := [[1], [1]]
    chunk_count := 2
    chunks := [{ chunk_id := 0, content := "a", metadata := "m" },
               { chunk_id := 1, content := "b", metadata := "m" }] }

/-- Example store holding only the tie record under doc_id d. -/
def exStoreTie : Store := [("d", exRecTie)]

/-- Example record: a document with a single chunk. -/
def exRecOne : StoreRecord :=
  { embeddings := [[1]]
    chunk_count := 1
    chunks := [{ chunk_id := 0, content := "a0", metadata := "m" }] }

/-- Example store holding only the one-chunk record under doc_id a. -/
def exStoreOne : Store := [("a", exRecOne)]

/-- Example record: a corrupted record whose embeddings list has three
entries while the metadata chunks list has only one. -/
def exRecShort : StoreRecord :=
  { embeddings := [[1], [1], [1]]
    chunk_count := 3
    chunks := [{ chunk_id := 0, content := "c0", metadata := "m" }] }

/-- Example store holding only the corrupted record under doc_id s. -/
def exStoreShort : Store := [("s", exRecShort)]

/-- Example input chunks for embed_chunks. -/
def exChunks : List Chunk :=
  [{ page_content := "ca", metadata := "ma" }, { page_content := "cb", metadata := "mb" }]

/-! Helper lemmas about the ranking pipeline. -/

theorem smallArgsort_sorted (xs : List ℚ) : List.Sorted (simLt xs) (smallArgsort xs) :=
  List.sorted_insertionSort (simLt xs) (List.range xs.length)

theorem smallArgsort_perm (xs : List ℚ) : (smallArgsort xs).Perm (List.range xs.length) :=
  List.perm_insertionSort (simLt xs) (List.range xs.length)

theorem argsort_eq_small {xs : List ℚ} (h : xs.length ≤ 16) :
    argsort xs = smallArgsort xs := by
  unfold argsort
  rw [if_pos h]

theorem argsort_exists_sorted (xs : List ℚ) :
    ∃ idxs : List Nat, idxs.Perm (List.range xs.length) ∧
      idxs.Pairwise (fun i j => simVal xs i ≤ simVal xs j) :=
  ⟨smallArgsort xs, smallArgsort_perm xs,
    List.Pairwise.imp (fun h => h.elim le_of_lt (fun h2 => le_of_eq h2.1))
      (smallArgsort_sorted xs)⟩

theorem argsort_perm (xs : List ℚ) : (argsort xs).Perm (List.range xs.length) := by
  unfold argsort
  split
  · exact smallArgsort_perm xs
  · exact (Classical.choose_spec (argsort_exists_sorted xs)).1

theorem argsort_sorted_le (xs : List ℚ) :
    (argsort xs).Pairwise (fun i j => simVal xs i ≤ simVal xs j) := by
  unfold argsort
  split
  · exact List.Pairwise.imp (fun h => h.elim le_of_lt (fun h2 => le_of_eq h2.1))
      (smallArgsort_sorted xs)
  · exact (Classical.choose_spec (argsort_exists_sorted xs)).2

theorem argsort_length (xs : List ℚ) : (argsort xs).length = xs.length := by
  rw [(argsort_perm xs).length_eq, List.length_range]

theorem argsort_nodup (xs : List ℚ) : (argsort xs).Nodup :=
  (argsort_perm xs).symm.nodup (List.nodup_range xs.length)

theorem argsort_mem {xs : List ℚ} {i : Nat} (h : i ∈ argsort xs) : i < xs.length := by
  have := (argsort_perm xs).mem_iff.mp h
  exact List.mem_range.mp this

theorem sliceLast_sublist (k : Nat) (xs : List Nat) : (sliceLast k xs).Sublist xs := by
  unfold sliceLast
  split
  · exact List.Sublist.refl xs
  · exact List.drop_sublist _ xs

theorem sliceLast_length_le {k : Nat} (hk : 1 ≤ k) (xs : List Nat) :
    (sliceLast k xs).length ≤ k := by
  unfold sliceLast
  rw [if_neg (by omega)]
  rw [List.length_drop]
  omega

theorem sliceLast_of_le {k : Nat} {xs : List Nat} (h : xs.length ≤ k) :
    sliceLast k xs = xs := by
  unfold sliceLast
  split
  · rfl
  · rw [Nat.sub_eq_zero_of_le h, List.drop_zero]

theorem topIndices_pairwise_le (sims : List ℚ) (k : Nat) :
    (topIndices sims k).Pairwise (fun i j => simVal sims j ≤ simVal sims i) := by
  unfold topIndices
  exact List.pairwise_reverse.mpr
    (List.Pairwise.sublist (sliceLast_sublist k (argsort sims)) (argsort_sorted_le sims))

theorem topIndices_pairwise_of_short {sims : List ℚ} (h : sims.length ≤ 16) (k : Nat) :
    (topIndices sims k).Pairwise (fun i j => simLt sims j i) := by
  unfold topIndices
  refine List.pairwise_reverse.mpr
    (List.Pairwise.sublist (sliceLast_sublist k (argsort sims)) ?_)
  rw [argsort_eq_small h]
  exact smallArgsort_sorted sims

theorem topIndices_nodup (sims : List ℚ) (k : Nat) : (topIndices sims k).Nodup := by
  unfold topIndices
  exact (List.nodup_reverse).mpr
    (List.Nodup.sublist (sliceLast_sublist k (argsort sims)) (argsort_nodup sims))

theorem topIndices_mem {sims : List ℚ} {k i : Nat} (h : i ∈ topIndices sims k) :
    i < sims.length := by
  unfold topIndices at h
  rw [List.mem_reverse] at h
  exact argsort_mem ((sliceLast_sublist k (argsort sims)).mem h)

theorem topIndices_length_le {k : Nat} (hk : 1 ≤ k) (sims : List ℚ) :
    (topIndices sims k).length ≤ k := by
  unfold topIndices
  rw [List.length_reverse]
  exact sliceLast_length_le hk (argsort sims)

theorem topIndices_of_le {sims : List ℚ} {k : Nat} (h : sims.length ≤ k) :
    topIndices sims k = (argsort sims).reverse := by
  unfold topIndices
  rw [sliceLast_of_le (by rw [argsort_length]; exact h)]

theorem buildResults_eq_filter_map (sims : List ℚ) (chunks : List ChunkMeta) :
    ∀ idxs : List Nat,
      buildResults sims chunks idxs =
        (idxs.filter (fun i => decide (i < chunks.length))).map (resultAt sims chunks)
  | [] => rfl
  | i :: rest => by
    by_cases h : i < chunks.length <;>
      simp [buildResults, List.filter_cons, h, buildResults_eq_filter_map sims chunks rest]

theorem buildResultsDoc_eq_filter_map (sims : List ℚ) (chunks : List ChunkMeta)
    (doc_id : String) :
    ∀ idxs : List Nat,
      buildResultsDoc sims chunks doc_id idxs =
        (idxs.filter (fun i => decide (i < chunks.length))).map
          (resultAtDoc sims chunks doc_id)
  | [] => rfl
  | i :: rest => by
    by_cases h : i < chunks.length <;>
      simp [buildResultsDoc, List.filter_cons, h,
        buildResultsDoc_eq_filter_map sims chunks doc_id rest]

theorem pySort_perm (l : List MultiResult) : (pySortByScoreDesc l).Perm l := by
  unfold pySortByScoreDesc
  have h := (List.perm_insertionSort mergeLt l.enum).map Prod.snd
  rwa [List.enum_map_snd] at h

theorem pySort_sorted (l : List MultiResult) :
    (pySortByScoreDesc l).Pairwise (fun a b => b.score ≤ a.score) := by
  unfold pySortByScoreDesc
  refine List.pairwise_map.mpr ?_
  refine (List.sorted_insertionSort mergeLt l.enum).imp ?_
  intro a b hab
  rcases hab with h | ⟨h, _⟩
  · exact le_of_lt h
  · exact le_of_eq h.symm

theorem enum_pairwise_fst_ne (l : List MultiResult) :
    l.enum.Pairwise (fun a b => a.1 ≠ b.1) := by
  have h : (l.enum.map Prod.fst).Nodup := by
    rw [List.enum_map_fst]
    exact List.nodup_range l.length
  exact List.pairwise_map.mp h

theorem pySort_stable (l : List MultiResult) :
    (List.insertionSort mergeLt l.enum).Pairwise
      (fun a b => b.2.score < a.2.score ∨ (a.2.score = b.2.score ∧ a.1 < b.1)) := by
  have hs := List.sorted_insertionSort mergeLt l.enum
  have hne : (List.insertionSort mergeLt l.enum).Pairwise (fun a b => a.1 ≠ b.1) := by
    refine (List.Perm.pairwise_iff ?_ (List.perm_insertionSort mergeLt l.enum)).mpr
      (enum_pairwise_fst_ne l)
    intro x y h
    exact h.symm
  refine (hs.and hne).imp ?_
  intro a b hab
  rcases hab with ⟨h | ⟨he, hle⟩, hne2⟩
  · exact Or.inl h
  · exact Or.inr ⟨he, lt_of_le_of_ne hle hne2⟩

theorem collectResults_eq_flatten (cosSim : List ℚ → List ℚ → ℚ)
    (embedQuery : String → List ℚ) (s : Store) (query : String) (top_k : Nat) :
    ∀ (doc_ids : List String) (acc : List MultiResult),
      doc_ids.foldl (fun acc d =>
        match retrieve_from_single_doc cosSim embedQuery s query d top_k with
        | .ok rs => acc ++ rs
        | .error _ => acc) acc =
      acc ++ (doc_ids.map (fun d =>
        match retrieve_from_single_doc cosSim embedQuery s query d top_k with
        | .ok rs => rs
        | .error _ => [])).flatten
  | [], acc => by simp
  | d :: ids, acc => by
    rw [List.foldl_cons, List.map_cons, List.flatten_cons,
      collectResults_eq_flatten cosSim embedQuery s query top_k ids]
    cases h : retrieve_from_single_doc cosSim embedQuery s query d top_k <;>
      simp [h, List.append_assoc]

theorem sumSq_nil : sumSq [] = 0 := rfl

theorem sumSq_cons (x : ℝ) (v : List ℝ) : sumSq (x :: v) = x * x + sumSq v := by
  simp [sumSq]

theorem sumSq_nonneg (v : List ℝ) : 0 ≤ sumSq v := by
  induction v with
  | nil => simp [sumSq_nil]
  | cons x xs ih =>
    rw [sumSq_cons]
    exact add_nonneg (mul_self_nonneg x) ih

theorem sumSq_map_div (v : List ℝ) (c : ℝ) :
    sumSq (v.map (fun x => x / c)) = sumSq v / (c * c) := by
  induction v with
  | nil => simp [sumSq_nil]
  | cons x xs ih =>
    rw [List.map_cons, sumSq_cons, sumSq_cons, ih, div_mul_div_comm, div_add_div_same]

theorem euclNorm_normalizeVec {v : List ℝ} (h : sumSq v ≠ 0) :
    euclNorm (normalizeVec v) = 1 := by
  unfold euclNorm normalizeVec
  rw [sumSq_map_div]
  unfold euclNorm
  rw [Real.mul_self_sqrt (sumSq_nonneg v), div_self h, Real.sqrt_one]

/-! Claim theorems. -/

/-- C1: the mock vector generator of enhanced_embeddings.py seeds numpy with
hash(text) % 10000000, and the built-in hash is keyed by the per-process
randomisation salt, so the seed handed to np.random.seed - the sole input of
the sample stream - already differs between two process runs with different
salts for the same text: under salts 0 and 1 the text "x" yields the two
distinct seeds 121 and 1000124, refuting cross-process determinism.  The
md5-based variant of mock_embeddings.py has no such salt input. -/
theorem C1_enhanced_seed_salt_dependent :
    (enhanced_mock_seed 0 "x", enhanced_mock_seed 1 "x") = (121, 1000124) := by
  decide

/-- C5: retrieve with a doc_id for which no store record exists fails with
the Not-Found ValueError; it does not return a result list, in particular
not an empty one. -/
theorem C5_missing_doc_not_found (cosSim : List ℚ → List ℚ → ℚ)
    (embedQuery : String → List ℚ) (s : Store) (query doc_id : String)
    (top_k : Nat) (h : storeRead s doc_id = none) :
    retrieve cosSim embedQuery s query doc_id top_k =
      .error ("No embeddings found for document " ++ doc_id) := by
  unfold retrieve
  rw [h]

/-- Witness for C5 at the scenario given in the spec: an empty store and the document
id missing_doc. -/
theorem C5_missing_doc_not_found_witness :
    retrieve np_dot (fun _ => [1]) [] "x" "missing_doc" 3 =
      .error ("No embeddings found for document " ++ "missing_doc") :=
  C5_missing_doc_not_found np_dot (fun _ => [1]) [] "x" "missing_doc" 3 rfl

/-- C6: constructing the chunker with max_tokens at most 0 reports a
configuration error to the caller before any chunking can happen, so no
chunk list is ever produced under such a configuration. -/
theorem C6_invalid_max_tokens (max_tokens chunk_overlap : Int)
    (h : max_tokens ≤ 0) :
    mkTextChunker max_tokens chunk_overlap =
      .error "configuration error: max_tokens must be positive" := by
  unfold mkTextChunker mkTextSplitter
  rw [if_pos h]

/-- Witness for C6 at the configuration (0, 200). -/
theorem C6_invalid_max_tokens_witness :
    mkTextChunker 0 200 =
      .error "configuration error: max_tokens must be positive" :=
  C6_invalid_max_tokens 0 200 (by decide)

/-- C4: a doc_id in the input list whose store record is missing is skipped
by retrieve_from_multiple_docs - no exception escapes - and the returned
list is exactly the ranked merge over the remaining doc_ids. -/
theorem C4_missing_doc_skipped (cosSim : List ℚ → List ℚ → ℚ)
    (embedQuery : String → List ℚ) (s : Store) (query : String)
    (ids1 ids2 : List String) (bad : String) (top_k : Nat)
    (hbad : storeRead s bad = none) :
    retrieve_from_multiple_docs cosSim embedQuery s query (ids1 ++ bad :: ids2) top_k =
      retrieve_from_multiple_docs cosSim embedQuery s query (ids1 ++ ids2) top_k := by
  have hbadr : retrieve_from_single_doc cosSim embedQuery s query bad top_k =
      .error ("No embeddings found for document " ++ bad) := by
    unfold retrieve_from_single_doc
    rw [hbad]
  unfold retrieve_from_multiple_docs collectResults
  rw [List.foldl_append, List.foldl_append, List.foldl_cons]
  simp only [hbadr]

/-- Witness for C4: the store holding only doc_id a, queried for the ids
[missing, a]; the missing id is dropped and the result is that of [a]. -/
theorem C4_missing_doc_skipped_witness :
    retrieve_from_multiple_docs np_dot (fun _ => [1]) exStoreOne "q" (["missing"] ++ ["a"]) 2 =
      retrieve_from_multiple_docs np_dot (fun _ => [1]) exStoreOne "q" ([] ++ ["a"]) 2 :=
  C4_missing_doc_skipped np_dot (fun _ => [1]) exStoreOne "q" [] ["a"] "missing" 2 rfl

/-- C7: on an aligned store record, a top_k larger than the stored chunk
count yields one result per stored chunk - fewer than top_k - and no
error. -/
theorem C7_topk_exceeding (cosSim : List ℚ → List ℚ → ℚ)
    (embedQuery : String → List ℚ) (s : Store) (query doc_id : String)
    (top_k : Nat) (r : StoreRecord)
    (hr : storeRead s doc_id = some r)
    (halign : r.embeddings.length = r.chunks.length)
    (hk : r.embeddings.length < top_k) :
    ∃ rs, retrieve cosSim embedQuery s query doc_id top_k = .ok rs ∧
      rs.length = r.chunks.length ∧ rs.length < top_k := by
  have hret : retrieve cosSim embedQuery s query doc_id top_k =
      .ok (buildResults (r.embeddings.map (fun ce => cosSim (embedQuery query) ce)) r.chunks
        (topIndices (r.embeddings.map (fun ce => cosSim (embedQuery query) ce)) top_k)) := by
    unfold retrieve
    rw [hr]
  have hlen : (buildResults (r.embeddings.map (fun ce => cosSim (embedQuery query) ce)) r.chunks
      (topIndices (r.embeddings.map (fun ce => cosSim (embedQuery query) ce)) top_k)).length =
      r.chunks.length := by
    rw [buildResults_eq_filter_map]
    have hslen : (r.embeddings.map (fun ce => cosSim (embedQuery query) ce)).length =
        r.chunks.length := by
      rw [List.length_map, halign]
    have hall : ∀ i ∈ topIndices (r.embeddings.map (fun ce => cosSim (embedQuery query) ce))
        top_k, (fun i => decide (i < r.chunks.length)) i = true := by
      intro i hi
      have := topIndices_mem hi
      rw [hslen] at this
      simpa using this
    rw [List.filter_eq_self.mpr hall, List.length_map]
    rw [topIndices_of_le (by rw [hslen]; omega)]
    rw [List.length_reverse, argsort_length, hslen]
  refine ⟨_, hret, hlen, ?_⟩
  rw [hlen]
  omega

/-- Witness for C7: the one-chunk store queried with top_k 3 returns exactly
one result. -/
theorem C7_topk_exceeding_witness :
    ∃ rs, retrieve np_dot (fun _ => [1]) exStoreOne "q" "a" 3 = .ok rs ∧
      rs.length = exRecOne.chunks.length ∧ rs.length < 3 :=
  C7_topk_exceeding np_dot (fun _ => [1]) exStoreOne "q" "a" 3 exRecOne rfl (by decide)
    (by decide)

/-- C10: on a record whose embeddings list is longer than its metadata
chunks list, retrieve still succeeds and its output is exactly the selected
top indices with every out-of-range index silently dropped, each remaining
index mapped to its result row in order. -/
theorem C10_out_of_range_skipped (cosSim : List ℚ → List ℚ → ℚ)
    (embedQuery : String → List ℚ) (s : Store) (query doc_id : String)
    (top_k : Nat) (r : StoreRecord)
    (hr : storeRead s doc_id = some r)
    (_hlong : r.chunks.length < r.embeddings.length) :
    retrieve cosSim embedQuery s query doc_id top_k =
      .ok (((topIndices (r.embeddings.map (fun ce => cosSim (embedQuery query) ce)) top_k).filter
          (fun i => decide (i < r.chunks.length))).map
        (resultAt (r.embeddings.map (fun ce => cosSim (embedQuery query) ce)) r.chunks)) := by
  have hret : retrieve cosSim embedQuery s query doc_id top_k =
      .ok (buildResults (r.embeddings.map (fun ce => cosSim (embedQuery query) ce)) r.chunks
        (topIndices (r.embeddings.map (fun ce => cosSim (embedQuery query) ce)) top_k)) := by
    unfold retrieve
    rw [hr]
  rw [hret, buildResults_eq_filter_map]

/-- Witness for C10: the corrupted three-embeddings-one-chunk store queried
with top_k 3 succeeds with the out-of-range indices dropped. -/
theorem C10_out_of_range_skipped_witness :
    retrieve np_dot (fun _ => [1]) exStoreShort "q" "s" 3 =
      .ok (((topIndices (exRecShort.embeddings.map (fun ce => np_dot ((fun _ => [1]) "q") ce)) 3).filter
          (fun i => decide (i < exRecShort.chunks.length))).map
        (resultAt (exRecShort.embeddings.map (fun ce => np_dot ((fun _ => [1]) "q") ce))
          exRecShort.chunks)) :=
  C10_out_of_range_skipped np_dot (fun _ => [1]) exStoreShort "q" "s" 3 exRecShort rfl
    (by decide)

/-- C9: after embed_chunks, the persisted record for doc_id is aligned by
construction: the embeddings list, the metadata chunks list and the recorded
chunk_count all have length len(chunks), and the metadata entry at index i
carries chunk_id i and the content of the i-th input chunk. -/
theorem C9_alignment (embed : String → List ℚ) (s : Store) (chunks : List Chunk)
    (doc_id : String) :
    ∃ r, storeRead (embed_chunks embed s chunks doc_id) doc_id = some r ∧
      r.embeddings.length = chunks.length ∧
      r.chunks.length = chunks.length ∧
      r.chunk_count = chunks.length ∧
      ∀ i, i < chunks.length →
        (r.chunks.getD i default).chunk_id = i ∧
        (r.chunks.getD i default).content = (chunks.getD i default).page_content := by
  refine ⟨{ embeddings := (chunks.map (fun c => c.page_content)).map embed
            chunk_count := chunks.length
            chunks := chunks.enum.map (fun p =>
              ChunkMeta.mk p.1 p.2.page_content p.2.metadata) }, ?_, ?_, ?_, ?_, ?_⟩
  · unfold embed_chunks storeWrite storeRead
    rw [if_pos rfl]
  · simp
  · simp [List.enum_length]
  · rfl
  · intro i hi
    have hmlen : i < (chunks.enum.map (fun p =>
        ChunkMeta.mk p.1 p.2.page_content p.2.metadata)).length := by
      rw [List.length_map, List.enum_length]
      exact hi
    have helen : i < chunks.enum.length := by
      rw [List.enum_length]
      exact hi
    have hgd : (chunks.enum.map (fun p =>
        ChunkMeta.mk p.1 p.2.page_content p.2.metadata)).getD i default =
        ChunkMeta.mk i (chunks.get ⟨i, hi⟩).page_content (chunks.get ⟨i, hi⟩).metadata := by
      rw [List.getD_eq_getElem?_getD, List.getElem?_eq_getElem hmlen]
      rw [List.getElem_map]
      show ChunkMeta.mk (chunks.enum.get ⟨i, helen⟩).1
          (chunks.enum.get ⟨i, helen⟩).2.page_content
          (chunks.enum.get ⟨i, helen⟩).2.metadata = _
      have he : chunks.enum.get ⟨i, helen⟩ = (i, chunks.get ⟨i, hi⟩) := by
        show chunks.enum[i] = _
        unfold List.enum
        rw [List.getElem_enumFrom]
        rw [Nat.zero_add]
        rfl
      rw [he]
    constructor
    · rw [hgd]
    · rw [hgd]
      show (chunks.get ⟨i, hi⟩).page_content = (chunks.getD i default).page_content
      rw [List.getD_eq_getElem?_getD, List.getElem?_eq_getElem hi]
      rfl

/-- Witness for C9 at a concrete two-chunk input and the empty store. -/
theorem C9_alignment_witness :
    ∃ r, storeRead (embed_chunks (fun _ => [1]) [] exChunks "d") "d" = some r ∧
      r.embeddings.length = exChunks.length ∧
      r.chunks.length = exChunks.length ∧
      r.chunk_count = exChunks.length ∧
      ∀ i, i < exChunks.length →
        (r.chunks.getD i default).chunk_id = i ∧
        (r.chunks.getD i default).content = (exChunks.getD i default).page_content :=
  C9_alignment (fun _ => [1]) [] exChunks "d"

/-- C2 (counterexample): on a store whose two chunks have identical
embeddings, every query scores them equally; the two-entry similarity array
is in the regime where the numpy introsort runs its stable insertion-sort
fallback, and retrieve returns the chunk with index 1 before the chunk with
index 0 at equal scores, refuting the claimed ascending tie-break. -/
theorem C2_ascending_tiebreak_counterexample :
    retrieve np_dot (fun _ => [1]) exStoreTie "q" "d" 2 =
      .ok [{ chunk_id := 1, content := "b", score := 1, metadata := "m" },
           { chunk_id := 0, content := "a", score := 1, metadata := "m" }] := by
  with_unfolding_all decide

/-- C2 (amended): on an aligned record, retrieve returns at most top_k
results in non-increasing score order; the relative order of equal-score
results is unspecified in general (the numpy default sort is not stable
beyond 16 elements), and in the stable small-array regime of at most 16
stored embeddings equal scores come out with the higher chunk index
first. -/
theorem C2_rank_order (cosSim : List ℚ → List ℚ → ℚ)
    (embedQuery : String → List ℚ) (s : Store) (query doc_id : String)
    (top_k : Nat) (r : StoreRecord)
    (hk : 1 ≤ top_k)
    (hr : storeRead s doc_id = some r)
    (hid : ∀ i, i < r.chunks.length → (r.chunks.getD i default).chunk_id = i) :
    ∃ rs, retrieve cosSim embedQuery s query doc_id top_k = .ok rs ∧
      rs.length ≤ top_k ∧
      rs.Pairwise (fun a b => b.score ≤ a.score) ∧
      (r.embeddings.length ≤ 16 →
        rs.Pairwise (fun a b => a.score = b.score → b.chunk_id < a.chunk_id)) := by
  have hret : retrieve cosSim embedQuery s query doc_id top_k =
      .ok (buildResults (r.embeddings.map (fun ce => cosSim (embedQuery query) ce)) r.chunks
        (topIndices (r.embeddings.map (fun ce => cosSim (embedQuery query) ce)) top_k)) := by
    unfold retrieve
    rw [hr]
  have key : ∀ sims : List ℚ, sims.length = r.embeddings.length →
      (buildResults sims r.chunks (topIndices sims top_k)).length ≤ top_k ∧
      (buildResults sims r.chunks (topIndices sims top_k)).Pairwise
        (fun a b => b.score ≤ a.score) ∧
      (r.embeddings.length ≤ 16 →
        (buildResults sims r.chunks (topIndices sims top_k)).Pairwise
          (fun a b => a.score = b.score → b.chunk_id < a.chunk_id)) := by
    intro sims hslen
    refine ⟨?_, ?_, ?_⟩
    · rw [buildResults_eq_filter_map, List.length_map]
      exact le_trans (List.length_filter_le _ _) (topIndices_length_le hk sims)
    · rw [buildResults_eq_filter_map]
      refine List.pairwise_map.mpr ?_
      have h4 := List.Pairwise.sublist
        (List.filter_sublist (p := fun i => decide (i < r.chunks.length))
          (topIndices sims top_k)) (topIndices_pairwise_le sims top_k)
      exact h4.imp (fun h => h)
    · intro h16
      have hs16 : sims.length ≤ 16 := by
        rw [hslen]
        exact h16
      rw [buildResults_eq_filter_map]
      refine List.pairwise_map.mpr ?_
      have h3 := (topIndices_pairwise_of_short hs16 top_k).and (topIndices_nodup sims top_k)
      have h4 := List.Pairwise.sublist
        (List.filter_sublist (p := fun i => decide (i < r.chunks.length))
          (topIndices sims top_k)) h3
      refine h4.imp_of_mem ?_
      intro i j hi hj hij
      obtain ⟨hlt, hne⟩ := hij
      have hi2 : i < r.chunks.length := of_decide_eq_true (List.mem_filter.mp hi).2
      have hj2 : j < r.chunks.length := of_decide_eq_true (List.mem_filter.mp hj).2
      simp only [resultAt, hid i hi2, hid j hj2]
      rcases hlt with h | ⟨he, hle⟩
      · exact fun heq => absurd h (by rw [heq]; exact lt_irrefl _)
      · exact fun _ => lt_of_le_of_ne hle (Ne.symm hne)
  obtain ⟨hl, hp, ht⟩ := key (r.embeddings.map (fun ce => cosSim (embedQuery query) ce))
    (by rw [List.length_map])
  exact ⟨_, hret, hl, hp, ht⟩

/-- Witness for the amended C2 at the tie store with top_k 2, whose two
stored embeddings are inside the stable small-array regime. -/
theorem C2_rank_order_witness :
    ∃ rs, retrieve np_dot (fun _ => [1]) exStoreTie "q" "d" 2 = .ok rs ∧
      rs.length ≤ 2 ∧
      rs.Pairwise (fun a b => b.score ≤ a.score) ∧
      (exRecTie.embeddings.length ≤ 16 →
        rs.Pairwise (fun a b => a.score = b.score → b.chunk_id < a.chunk_id)) :=
  C2_rank_order np_dot (fun _ => [1]) exStoreTie "q" "d" 2 exRecTie (by decide) rfl
    (by decide)

/-- C3 (counterexample): merging over the single document of the tie store
returns its two equally scored chunks with chunk index 1 first, refuting the
claimed ascending-chunk-index tie-break of the merged ranking. -/
theorem C3_merge_tiebreak_counterexample :
    retrieve_from_multiple_docs np_dot (fun _ => [1]) exStoreTie "q" ["d"] 2 =
      [{ chunk_id := 1, content := "b", score := 1, metadata := "m", doc_id := "d" },
       { chunk_id := 0, content := "a", score := 1, metadata := "m", doc_id := "d" }] := by
  with_unfolding_all decide

/-- C3 (amended): the multi-document retriever concatenates the per-document
local top_k result lists (a failed document contributing nothing), sorts the
concatenation by score descending with a stable sort - on equal scores the
earlier concatenation position comes first, not the lower chunk index; the
order of equal scores inside one local list is whatever the reversed numpy
argsort produced there, unspecified in general - and returns the first
top_k entries: the collected list is the flattening of the local lists, the
sort is a permutation of it, the output is its top_k prefix in
non-increasing score order, and the position-decorated sort is strictly
ordered by (score descending, concatenation position ascending). -/
theorem C3_merge_structure (cosSim : List ℚ → List ℚ → ℚ)
    (embedQuery : String → List ℚ) (s : Store) (query : String)
    (doc_ids : List String) (top_k : Nat) :
    collectResults cosSim embedQuery s query doc_ids top_k =
      (doc_ids.map (fun d =>
        match retrieve_from_single_doc cosSim embedQuery s query d top_k with
        | .ok rs => rs
        | .error _ => [])).flatten ∧
    retrieve_from_multiple_docs cosSim embedQuery s query doc_ids top_k =
      (pySortByScoreDesc (collectResults cosSim embedQuery s query doc_ids top_k)).take top_k ∧
    (pySortByScoreDesc (collectResults cosSim embedQuery s query doc_ids top_k)).Perm
      (collectResults cosSim embedQuery s query doc_ids top_k) ∧
    (retrieve_from_multiple_docs cosSim embedQuery s query doc_ids top_k).Pairwise
      (fun a b => b.score ≤ a.score) ∧
    (List.insertionSort mergeLt
        (collectResults cosSim embedQuery s query doc_ids top_k).enum).Pairwise
      (fun a b => b.2.score < a.2.score ∨ (a.2.score = b.2.score ∧ a.1 < b.1)) := by
  refine ⟨?_, rfl, pySort_perm _, ?_, pySort_stable _⟩
  · unfold collectResults
    rw [collectResults_eq_flatten]
    rw [List.nil_append]
  · show ((pySortByScoreDesc _).take top_k).Pairwise _
    exact List.Pairwise.sublist (List.take_sublist _ _) (pySort_sorted _)

/-- C8: the mock embedding pipeline returns a vector of exactly the requested
dimension whose Euclidean norm is exactly 1 in the exact-real model of the
floating-point computation, for any seeding function and any drawn sample
vector of the right length that is not identically zero. -/
theorem C8_unit_norm (seedOf : String → Nat) (randn : Nat → Nat → List ℝ)
    (text : String) (dim : Nat)
    (hlen : (randn (seedOf text) dim).length = dim)
    (hnz : sumSq (randn (seedOf text) dim) ≠ 0) :
    (generate_mock_embedding seedOf randn text dim).length = dim ∧
    euclNorm (generate_mock_embedding seedOf randn text dim) = 1 := by
  constructor
  · unfold generate_mock_embedding normalizeVec
    rw [List.length_map]
    exact hlen
  · unfold generate_mock_embedding
    exact euclNorm_normalizeVec hnz

/-- Witness for C8 with the sample vector (3, 4) of norm 5 at dimension 2. -/
theorem C8_unit_norm_witness :
    (generate_mock_embedding (fun _ => 0) (fun _ _ => [(3:ℝ), 4]) "t" 2).length = 2 ∧
    euclNorm (generate_mock_embedding (fun _ => 0) (fun _ _ => [(3:ℝ), 4]) "t" 2) = 1 :=
  C8_unit_norm (fun _ => 0) (fun _ _ => [(3:ℝ), 4]) "t" 2 rfl
    (by norm_num [sumSq_cons, sumSq_nil])

end MedQuery
